import Mathlib

/-!
Verification of the World Happiness Report ETL pipeline
(CSV -> JSON -> id tagging -> cleaning -> DML generation).

The Python sources are embedded shallowly:
* JSON scalar values are modelled by `JVal` (null, string, int, float);
  floats are modelled as rationals.
* a JSON object field that may be absent is an `Option JVal`
  (`none` = key absent, `some .jnull` = key present holding `null`),
  matching Python `dict.get` semantics.
* each script's per-record / per-file transformation is a pure Lean
  function mirroring the source line by line; file I/O is replaced by
  explicit arguments and results.
-/

namespace WHR

/-- A JSON scalar value as Python's `json` module produces it:
`null`, a string, an int, or a float (modelled as a rational). -/
inductive JVal where
  | jnull
  | jstr (s : String)
  | jint (n : Int)
  | jnum (q : Rat)
deriving DecidableEq, Repr

/-- Python `entry.get(k)` (no default): absent key gives `None`. -/
def pyGet (f : Option JVal) : JVal := f.getD JVal.jnull

/-- Python `entry.get(k, d)`: absent key gives the default `d`. -/
def pyGetD (f : Option JVal) (d : JVal) : JVal := f.getD d

/-- Character map underlying Python `s.replace(',', '.')`
(single-character pattern, hence a character-wise map). -/
def commaToDotChar (c : Char) : Char := if c = ',' then '.' else c

/-- Python `s.replace(',', '.')` for the one-character pattern `,`. -/
def commaToDot (s : String) : String := String.mk (s.data.map commaToDotChar)

/-- Source `fix_json_data.fix_decimal_format`: strings get commas
replaced by dots, every non-string value passes through unchanged. -/
def fix_decimal_format (v : JVal) : JVal :=
  match v with
  | JVal.jstr s => JVal.jstr (commaToDot s)
  | v => v

/-- A record of the cleaned-JSON corpus as `fix_json_data.py` reads it:
the 17 canonical fields, each possibly absent. -/
structure FEntry where
  ranking : Option JVal := none
  country_name : Option JVal := none
  region_name : Option JVal := none
  happiness_score : Option JVal := none
  gdp_per_capita : Option JVal := none
  social_support : Option JVal := none
  healthy_life_expectancy : Option JVal := none
  freedom_to_make_life_choices : Option JVal := none
  generosity : Option JVal := none
  perceptions_of_corruption : Option JVal := none
  dystopia_residual : Option JVal := none
  region_id : Option JVal := none
  country_id : Option JVal := none
  report_id : Option JVal := none
  economic_id : Option JVal := none
  social_id : Option JVal := none
  perception_id : Option JVal := none
deriving DecidableEq, Repr

/-- Python comparison `entry.get('region_id') == 0`: true exactly for a
present numeric value equal to zero (`None == 0` and `'0' == 0` are
false in Python; `0.0 == 0` is true). -/
def regionIdIsZero (f : Option JVal) : Bool :=
  match f with
  | some (JVal.jint n) => n == 0
  | some (JVal.jnum q) => q == 0
  | _ => false

/-- Source `fix_json_data.fix_json_file`, the per-record dict literal
(lines 39-57): every kept record is rebuilt with all 17 keys present,
string numerics get commas replaced by dots, `healthy_life_expectancy`
is passed through untouched, id fields are passed through. -/
def fix_entry (e : FEntry) : FEntry where
  ranking := some (pyGet e.ranking)
  country_name := some (pyGet e.country_name)
  region_name := some (pyGet e.region_name)
  happiness_score := some (fix_decimal_format (pyGetD e.happiness_score (JVal.jstr "0")))
  gdp_per_capita := some (fix_decimal_format (pyGetD e.gdp_per_capita (JVal.jstr "0")))
  social_support := some (fix_decimal_format (pyGetD e.social_support (JVal.jstr "0")))
  healthy_life_expectancy := some (pyGetD e.healthy_life_expectancy (JVal.jint 0))
  freedom_to_make_life_choices :=
    some (fix_decimal_format (pyGetD e.freedom_to_make_life_choices (JVal.jstr "0")))
  generosity := some (fix_decimal_format (pyGetD e.generosity (JVal.jstr "0")))
  perceptions_of_corruption :=
    some (fix_decimal_format (pyGetD e.perceptions_of_corruption (JVal.jstr "0")))
  dystopia_residual := some (fix_decimal_format (pyGetD e.dystopia_residual (JVal.jstr "0")))
  region_id := some (pyGet e.region_id)
  country_id := some (pyGet e.country_id)
  report_id := some (pyGet e.report_id)
  economic_id := some (pyGet e.economic_id)
  social_id := some (pyGet e.social_id)
  perception_id := some (pyGet e.perception_id)

/-- Source `fix_json_data.fix_json_file`, the main loop (lines 29-58):
records with `region_id == 0` are skipped and counted, every other
record is rebuilt by `fix_entry`; returns the kept records in order and
the removed count. -/
def fix_records : List FEntry → List FEntry × Nat
  | [] => ([], 0)
  | e :: rest =>
    let r := fix_records rest
    if regionIdIsZero e.region_id then (r.1, r.2 + 1)
    else (fix_entry e :: r.1, r.2)

/-- A record as `add_ids.py` reads it: the substantive fields plus the
six id fields it (re)writes.  `ranking` and the name fields carry their
typed payloads, matching the corpus this stage consumes. -/
structure AEntry where
  ranking : Option Int := none
  country_name : Option String := none
  region_name : Option String := none
  happiness_score : Option JVal := none
  gdp_per_capita : Option JVal := none
  social_support : Option JVal := none
  healthy_life_expectancy : Option JVal := none
  freedom_to_make_life_choices : Option JVal := none
  generosity : Option JVal := none
  perceptions_of_corruption : Option JVal := none
  dystopia_residual : Option JVal := none
  region_id : Option Int := none
  country_id : Option Int := none
  report_id : Option Int := none
  economic_id : Option Int := none
  social_id : Option Int := none
  perception_id : Option Int := none
deriving DecidableEq, Repr

/-- Source `add_ids.REGION_MAP`: the fixed 10-entry region name table. -/
def REGION_MAP : List (String × Nat) :=
  [("South Asia", 1),
   ("Central and Eastern Europe", 2),
   ("Sub-Saharan Africa", 3),
   ("Latin America and Caribbean", 4),
   ("Commonwealth of Independent States", 5),
   ("North America and ANZ", 6),
   ("Western Europe", 7),
   ("Southeast Asia", 8),
   ("East Asia", 9),
   ("Middle East and North Africa", 10)]

/-- Python `REGION_MAP.get(region_name, 0)`: exact-match lookup with
sentinel `0` for unresolved names. -/
def regionLookup (name : String) : Nat :=
  ((REGION_MAP.find? (fun p => p.1 == name)).map Prod.snd).getD 0

/-- The process-wide `COUNTRY_ID_MAP` of `add_ids.py`, modelled as the
insertion-ordered association list of its (country name, id) pairs. -/
abbrev CMap := List (String × Nat)

/-- Python `COUNTRY_ID_MAP[country_name]` lookup (first match). -/
def lookupCountry (m : CMap) (c : String) : Option Nat :=
  (m.find? (fun p => p.1 == c)).map Prod.snd

/-- Source `add_ids.get_country_id`: return the memoized id, or assign
`len(COUNTRY_ID_MAP) + 1` to a first-seen name and record it. -/
def get_country_id (m : CMap) (c : String) : Nat × CMap :=
  match lookupCountry m c with
  | some i => (i, m)
  | none => (m.length + 1, m ++ [(c, m.length + 1)])

/-- Source `add_ids.add_ids_to_entry`: resolve `region_id` and
`country_id`, derive the report and indicator ids by the fixed
formulas, and write the six id fields onto the record.  Returns the
updated record together with the updated country map. -/
def add_ids_to_entry (m : CMap) (e : AEntry) : AEntry × CMap :=
  let region_name := e.region_name.getD ""
  let country_name := e.country_name.getD ""
  let ranking := e.ranking.getD 1
  let region_id : Int := regionLookup region_name
  let country_id : Int := (get_country_id m country_name).1
  let m2 := (get_country_id m country_name).2
  let report_id : Int := country_id * 1000 + ranking
  ({ e with
      region_id := some region_id
      country_id := some country_id
      report_id := some report_id
      economic_id := some (report_id * 10 + 1)
      social_id := some (report_id * 10 + 2)
      perception_id := some (report_id * 10 + 3) }, m2)

/-- One file's loop of `add_ids.process_files`: tag every entry in
order, threading the country map. -/
def process_entries (m : CMap) : List AEntry → List AEntry × CMap
  | [] => ([], m)
  | e :: es =>
    let r1 := add_ids_to_entry m e
    let r2 := process_entries r1.2 es
    (r1.1 :: r2.1, r2.2)

/-- Source `add_ids.process_files`: process the year files in sequence,
threading the single process-wide country map across all of them. -/
def process_files (m : CMap) : List (List AEntry) → List (List AEntry) × CMap
  | [] => ([], m)
  | f :: fs =>
    let r1 := process_entries m f
    let r2 := process_files r1.2 fs
    (r1.1 :: r2.1, r2.2)

/-- The country name an entry contributes to the country map
(`entry.get("country_name", "")`). -/
def entryName (e : AEntry) : String := e.country_name.getD ""

/-- The ids handed out by a sequence of `get_country_id` calls,
threading the map. -/
def runIds (m : CMap) : List String → List Nat × CMap
  | [] => ([], m)
  | c :: cs =>
    let i := (get_country_id m c).1
    let r := runIds (get_country_id m c).2 cs
    (i :: r.1, r.2)

/-- Distinct names in first-seen order, continuing from `acc`. -/
def firstSeen (acc : List String) : List String → List String
  | [] => acc
  | c :: cs => firstSeen (if c ∈ acc then acc else acc ++ [c]) cs

/-- The association list pairing the names `ks` with ids
`n+1, n+2, ...` in order. -/
def ofKeysFrom (n : Nat) : List String → CMap
  | [] => []
  | k :: ks => (k, n + 1) :: ofKeysFrom (n + 1) ks

/-- The canonical country map holding `ks` with ids `1, 2, ...`. -/
def ofKeys (ks : List String) : CMap := ofKeysFrom 0 ks

/-- One-based position of the first occurrence of `c` in a list. -/
def pos1 (c : String) : List String → Nat
  | [] => 0
  | k :: ks => if k = c then 1 else pos1 c ks + 1

/-- A country id as it is stored on a record. -/
def natIdOpt (i : Nat) : Option Int := some (i : Int)

/-- Python `str.strip()`: drop whitespace from both ends. -/
def pyStrip (s : String) : String :=
  String.mk
    (((s.data.dropWhile Char.isWhitespace).reverse.dropWhile Char.isWhitespace).reverse)

/-- Leading sign of a numeric literal: `(negative?, rest)`. -/
def readSign : List Char → Bool × List Char
  | '-' :: cs => (true, cs)
  | '+' :: cs => (false, cs)
  | cs => (false, cs)

/-- Read a run of decimal digits: `(value, digit count, rest)`. -/
def readDigitsAux (acc cnt : Nat) : List Char → Nat × Nat × List Char
  | [] => (acc, cnt, [])
  | c :: cs =>
    if c.isDigit then readDigitsAux (acc * 10 + (c.toNat - 48)) (cnt + 1) cs
    else (acc, cnt, c :: cs)

/-- Read the optional exponent part after the mantissa; `some e` when
the remainder is empty or a well-formed `e`/`E` exponent, else `none`. -/
def readExpTail (cs : List Char) : Option Int :=
  match cs with
  | [] => some 0
  | c :: cs1 =>
    if c = 'e' ∨ c = 'E' then
      let sgn := readSign cs1
      let d := readDigitsAux 0 0 sgn.2
      if d.2.1 = 0 ∨ d.2.2 ≠ [] then none
      else some (if sgn.1 then -(d.1 : Int) else (d.1 : Int))
    else none

/-- Integer power of ten over the rationals. -/
def ratPow10 (e : Int) : Rat :=
  if 0 ≤ e then ((10 : Rat) ^ e.toNat) else 1 / ((10 : Rat) ^ (-e).toNat)

/-- Python `float(s)` on a decimal literal: optional surrounding
whitespace, optional sign, digits with an optional fractional part, and
an optional `e`/`E` exponent; `none` when `float` would raise
`ValueError`.  (The rarely used forms `inf`, `nan` and digit-group
underscores are treated as unparseable.) -/
def floatOfString (s : String) : Option Rat :=
  let cs0 := (pyStrip s).data
  let sgn := readSign cs0
  let ip := readDigitsAux 0 0 sgn.2
  let core : Option (Rat × List Char) :=
    match ip.2.2 with
    | '.' :: cs2 =>
      let fp := readDigitsAux 0 0 cs2
      if ip.2.1 = 0 ∧ fp.2.1 = 0 then none
      else some ((ip.1 : Rat) + (fp.1 : Rat) / (10 : Rat) ^ fp.2.1, fp.2.2)
    | rest => if ip.2.1 = 0 then none else some ((ip.1 : Rat), rest)
  match core with
  | none => none
  | some mr =>
    match readExpTail mr.2 with
    | none => none
    | some e => some ((if sgn.1 then -mr.1 else mr.1) * ratPow10 e)

/-- Source `csv_to_json_converter.parse_number`: `None` or blank gives
`0.0`; otherwise strip, turn commas into dots and parse, falling back
to `0.0` on failure.  Total: it never raises. -/
def parse_number (value : Option String) : Rat :=
  match value with
  | none => 0
  | some s =>
    if pyStrip s = "" then 0
    else (floatOfString (commaToDot (pyStrip s))).getD 0

/-- The 32-bit modulus. -/
def M32 : Nat := 4294967296

/-- MD5 per-round left-rotation amounts. -/
def md5S : List Nat :=
  [7, 12, 17, 22, 7, 12, 17, 22, 7, 12, 17, 22, 7, 12, 17, 22,
   5, 9, 14, 20, 5, 9, 14, 20, 5, 9, 14, 20, 5, 9, 14, 20,
   4, 11, 16, 23, 4, 11, 16, 23, 4, 11, 16, 23, 4, 11, 16, 23,
   6, 10, 15, 21, 6, 10, 15, 21, 6, 10, 15, 21, 6, 10, 15, 21]

/-- MD5 additive constants `floor(2^32 * abs(sin(i+1)))`. -/
def md5K : List Nat :=
  [3614090360, 3905402710, 606105819, 3250441966,
   4118548399, 1200080426, 2821735955, 4249261313,
   1770035416, 2336552879, 4294925233, 2304563134,
   1804603682, 4254626195, 2792965006, 1236535329,
   4129170786, 3225465664, 643717713, 3921069994,
   3593408605, 38016083, 3634488961, 3889429448,
   568446438, 3275163606, 4107603335, 1163531501,
   2850285829, 4243563512, 1735328473, 2368359562,
   4294588738, 2272392833, 1839030562, 4259657740,
   2763975236, 1272893353, 4139469664, 3200236656,
   681279174, 3936430074, 3572445317, 76029189,
   3654602809, 3873151461, 530742520, 3299628645,
   4096336452, 1126891415, 2878612391, 4237533241,
   1700485571, 2399980690, 4293915773, 2240044497,
   1873313359, 4264355552, 2734768916, 1309151649,
   4149444226, 3174756917, 718787259, 3951481745]

/-- Left rotation of a 32-bit word. -/
def rotl32 (x n : Nat) : Nat := ((x <<< n) ||| (x >>> (32 - n))) % M32

/-- MD5 nonlinear round function, selected by round index. -/
def md5F (i b c d : Nat) : Nat :=
  if i < 16 then (b &&& c) ||| ((M32 - 1 - b) &&& d)
  else if i < 32 then (d &&& b) ||| ((M32 - 1 - d) &&& c)
  else if i < 48 then b ^^^ c ^^^ d
  else c ^^^ (b ||| (M32 - 1 - d))

/-- MD5 message-word index for round `i`. -/
def md5G (i : Nat) : Nat :=
  if i < 16 then i
  else if i < 32 then (5 * i + 1) % 16
  else if i < 48 then (3 * i + 5) % 16
  else (7 * i) % 16

/-- One MD5 round on the `(a, b, c, d)` state. -/
def md5Round (M : List Nat) (st : Nat × Nat × Nat × Nat) (i : Nat) :
    Nat × Nat × Nat × Nat :=
  let f := (md5F i st.2.1 st.2.2.1 st.2.2.2 + st.1 + md5K.getD i 0 +
    M.getD (md5G i) 0) % M32
  (st.2.2.2, (st.2.1 + rotl32 f (md5S.getD i 0)) % M32, st.2.1, st.2.2.1)

/-- Process one 512-bit chunk (16 little-endian words). -/
def md5Chunk (st : Nat × Nat × Nat × Nat) (M : List Nat) : Nat × Nat × Nat × Nat :=
  let r := (List.range 64).foldl (md5Round M) st
  ((st.1 + r.1) % M32, (st.2.1 + r.2.1) % M32,
   (st.2.2.1 + r.2.2.1) % M32, (st.2.2.2 + r.2.2.2) % M32)

/-- UTF-8 encoding of one character, as Python `str.encode()` uses. -/
def utf8Bytes (c : Char) : List Nat :=
  let n := c.toNat
  if n < 128 then [n]
  else if n < 2048 then [192 + n / 64, 128 + n % 64]
  else if n < 65536 then [224 + n / 4096, 128 + (n / 64) % 64, 128 + n % 64]
  else [240 + n / 262144, 128 + (n / 4096) % 64, 128 + (n / 64) % 64, 128 + n % 64]

/-- UTF-8 bytes of a string. -/
def strBytes (s : String) : List Nat := (s.data.map utf8Bytes).flatten

/-- Little-endian 64-bit byte encoding. -/
def le64 (n : Nat) : List Nat := (List.range 8).map (fun i => (n >>> (8 * i)) % 256)

/-- Little-endian 32-bit byte encoding. -/
def le4 (n : Nat) : List Nat := (List.range 4).map (fun i => (n >>> (8 * i)) % 256)

/-- MD5 padding: `0x80`, zeros to 56 mod 64, then the bit length. -/
def md5pad (msg : List Nat) : List Nat :=
  msg ++ [128] ++ List.replicate ((119 - msg.length % 64) % 64) 0 ++
    le64 ((msg.length * 8) % (2 ^ 64))

/-- A 32-bit word from four little-endian bytes. -/
def leWord (bs : List Nat) : Nat := bs.foldr (fun b acc => b + 256 * acc) 0

/-- The 16 words of chunk `i` of a padded message. -/
def chunkWords (padded : List Nat) (i : Nat) : List Nat :=
  (List.range 16).map (fun j => leWord ((padded.drop (64 * i + 4 * j)).take 4))

/-- The final MD5 state over a byte message. -/
def md5State (msg : List Nat) : Nat × Nat × Nat × Nat :=
  let padded := md5pad msg
  (List.range (padded.length / 64)).foldl
    (fun st i => md5Chunk st (chunkWords padded i))
    (1732584193, 4023233417, 2562383102, 271733878)

/-- MD5 digest bytes (the hexdigest read two hex digits per byte). -/
def md5Digest (msg : List Nat) : List Nat :=
  let st := md5State msg
  le4 st.1 ++ le4 st.2.1 ++ le4 st.2.2.1 ++ le4 st.2.2.2

/-- Python `int(hashlib.md5(s.encode()).hexdigest(), 16)`. -/
def md5Int (s : String) : Nat :=
  (md5Digest (strBytes s)).foldl (fun acc b => acc * 256 + b) 0

/-- Python `round` to an integer: nearest, ties to even. -/
def roundHalfEven (q : Rat) : Int :=
  let f : Int := ⌊q⌋
  if q - f < 1 / 2 then f
  else if q - f > 1 / 2 then f + 1
  else if f % 2 = 0 then f else f + 1

/-- Python `round(q, 3)` (binary-float rounding modelled exactly on
rationals). -/
def pyRound3 (q : Rat) : Rat := (roundHalfEven (q * 1000) : Rat) / 1000

/-- Zero-padded three-digit rendering of `n < 1000`. -/
def pad3 (n : Nat) : String :=
  if n < 10 then "00" ++ toString n
  else if n < 100 then "0" ++ toString n
  else toString n

/-- Python `f"{q:.3f}".replace(".", ",")` for the nonnegative
thousandths produced by the residual computation. -/
def formatComma3 (q : Rat) : String :=
  let k : Nat := (roundHalfEven (q * 1000)).toNat
  toString (k / 1000) ++ "," ++ pad3 (k % 1000)

/-- Python `float(str(v).replace(",", "."))` on a JSON scalar: strings
are parsed with commas as dots, numbers round-trip through `str`
exactly, and `None` (whose `str` is unparseable) fails. -/
def pyFloatOfJVal (v : JVal) : Option Rat :=
  match v with
  | JVal.jstr s => floatOfString (commaToDot s)
  | JVal.jint n => some (n : Rat)
  | JVal.jnum q => some q
  | JVal.jnull => none

/-- The numeric core of `clean_and_reorder.calculate_dystopia_residual`
(lines 55-69): hash `"{country_name}_{ranking}"` with MD5, take the
digest mod 1000 over 1000, add half of it to the score-derived base,
clamp into `[0.05, 0.95]` and round to 3 decimals. -/
def residual_core (country_name : String) (ranking : Int) (happiness_score : Rat) : Rat :=
  let hashVal := md5Int (country_name ++ "_" ++ toString ranking)
  let unique_factor : Rat := ((hashVal % 1000 : Nat) : Rat) / 1000
  let base := max (1 / 10 : Rat) ((happiness_score - 5) * (3 / 10))
  let dystopia := base + unique_factor * (1 / 2)
  pyRound3 (max (1 / 20 : Rat) (min (19 / 20) dystopia))

/-- A record as `clean_and_reorder.calculate_dystopia_residual` reads
it: the three fields the residual depends on. -/
structure CEntry where
  ranking : Option Int := none
  country_name : Option String := none
  happiness_score : Option JVal := none
deriving DecidableEq, Repr

/-- Source `clean_and_reorder.calculate_dystopia_residual`: parse the
score (any failure yields the fixed fallback string `"0,123"`), run the
numeric core, and format with a decimal comma. -/
def calculate_dystopia_residual (e : CEntry) : String :=
  match pyFloatOfJVal (e.happiness_score.getD (JVal.jstr "0")) with
  | none => "0,123"
  | some score =>
    formatComma3 (residual_core (e.country_name.getD "") (e.ranking.getD 1) score)

/-- Python `round(q, n)` (round-half-even on the scaled value). -/
def pyRoundN (n : Nat) (q : Rat) : Rat :=
  (roundHalfEven (q * (10 : Rat) ^ n) : Rat) / (10 : Rat) ^ n

/-- Python `int(q)` on a float: truncation toward zero. -/
def ratTrunc (q : Rat) : Int := if 0 ≤ q then ⌊q⌋ else ⌈q⌉

/-- Python truthiness of a JSON scalar. -/
def truthy (v : JVal) : Bool :=
  match v with
  | JVal.jnull => false
  | JVal.jstr s => !(s == "")
  | JVal.jint n => !(n == 0)
  | JVal.jnum q => !(q == 0)

/-- Source `generate_dml_from_json.safe_float` (JSON-driven Emitter):
`None` or the string `none` gives the default `0.0`; otherwise parse
`str(value).replace(',', '.')`, defaulting on failure. -/
def safe_float (value : JVal) : Rat :=
  match value with
  | JVal.jnull => 0
  | JVal.jint n => (n : Rat)
  | JVal.jnum q => q
  | JVal.jstr s =>
    if s.toLower == "none" then 0
    else (floatOfString (commaToDot s)).getD 0

/-- Source `generate_dml_from_json.safe_int` (JSON-driven Emitter):
like `safe_float` but truncated to an integer, default `0`. -/
def safe_int (value : JVal) : Int :=
  match value with
  | JVal.jnull => 0
  | JVal.jint n => n
  | JVal.jnum q => ratTrunc q
  | JVal.jstr s =>
    if s.toLower == "none" then 0
    else
      match floatOfString (commaToDot s) with
      | none => 0
      | some q => ratTrunc q

/-- An entry of the `countries` dict of the JSON-driven Emitter:
`(country_id, country_name, region_id)` as raw JSON scalars. -/
abbrev CtryA := JVal × JVal × JVal

/-- Source `generate_dml_from_json.extract_countries`, inner loop: add
each entry with truthy name and id whose id is not yet present. -/
def addCountries (acc : List CtryA) : List FEntry → List CtryA
  | [] => acc
  | e :: es =>
    addCountries
      (if truthy (pyGet e.country_name) && truthy (pyGet e.country_id) &&
          !(acc.any (fun p => p.1 == pyGet e.country_id)) then
        acc ++ [(pyGet e.country_id, pyGet e.country_name, pyGet e.region_id)]
      else acc) es

/-- Source `generate_dml_from_json.extract_countries`: scan all years
in order; the first occurrence of a `country_id` wins. -/
def extract_countries (acc : List CtryA) : List (Nat × List FEntry) → List CtryA
  | [] => acc
  | ye :: rest => extract_countries (addCountries acc ye.2) rest

/-- Sort key mirroring Python `sorted` on the (integer) country ids;
non-integers (which would raise `TypeError` in Python) are totalized to
key `0` — the referential claims do not depend on the order. -/
def jvalKey (v : JVal) : Int :=
  match v with
  | JVal.jint n => n
  | _ => 0

/-- A `happiness_report` row of the JSON-driven Emitter. -/
structure HRow where
  report_id : Nat
  country_id : JVal
  year : Nat
  ranking : Int
  happiness_score : Rat
  dystopia_residual : Rat
deriving DecidableEq, Repr

/-- An `economic_indicator` row of the JSON-driven Emitter. -/
structure ERow where
  economic_id : Nat
  report_id : Nat
  gdp_per_capita : Rat
deriving DecidableEq, Repr

/-- A `social_indicator` row of the JSON-driven Emitter. -/
structure SRow where
  social_id : Nat
  report_id : Nat
  social_support : Rat
  healthy_life_expectancy : Rat
  freedom_to_make_life_choices : Rat
deriving DecidableEq, Repr

/-- A `perception_indicator` row of the JSON-driven Emitter. -/
structure PRow where
  perception_id : Nat
  report_id : Nat
  generosity : Rat
  perceptions_of_corruption : Rat
deriving DecidableEq, Repr

/-- The four per-table row lists collected by `generate_dml`. -/
structure DmlRows where
  happiness : List HRow
  economic : List ERow
  social : List SRow
  perception : List PRow
deriving DecidableEq, Repr

/-- Concatenation of row collections. -/
def DmlRows.concat (a b : DmlRows) : DmlRows :=
  ⟨a.happiness ++ b.happiness, a.economic ++ b.economic,
   a.social ++ b.social, a.perception ++ b.perception⟩

/-- Python `next(e for e in entries if e.get('country_id') == cid)`
pattern of `generate_dml` (lines 206-210): first matching entry. -/
def findEntry (cid : JVal) (es : List FEntry) : Option FEntry :=
  es.find? (fun e => pyGet e.country_id == cid)

/-- Source `generate_dml_from_json.generate_dml`, inner year loop for
one country: emit the four rows from the first matching entry of each
year (skipping years without one), threading the dense `report_id`
counter. -/
def genA_years (cid : JVal) (counter : Nat) :
    List (Nat × List FEntry) → DmlRows × Nat
  | [] => (⟨[], [], [], []⟩, counter)
  | ye :: rest =>
    match findEntry cid ye.2 with
    | none => genA_years cid counter rest
    | some entry =>
      let rid := counter
      let r := genA_years cid (counter + 1) rest
      (⟨{ report_id := rid, country_id := cid, year := ye.1,
          ranking := safe_int (pyGetD entry.ranking (JVal.jint 0)),
          happiness_score := pyRoundN 2 (safe_float (pyGetD entry.happiness_score (JVal.jint 0))),
          dystopia_residual :=
            pyRoundN 3 (safe_float (pyGetD entry.dystopia_residual (JVal.jnum (1 / 10)))) }
          :: r.1.happiness,
        { economic_id := rid, report_id := rid,
          gdp_per_capita := pyRoundN 2 (safe_float (pyGetD entry.gdp_per_capita (JVal.jint 0))) }
          :: r.1.economic,
        { social_id := rid + 10000, report_id := rid,
          social_support := pyRoundN 2 (safe_float (pyGetD entry.social_support (JVal.jint 0))),
          healthy_life_expectancy :=
            pyRoundN 1 (safe_float (pyGetD entry.healthy_life_expectancy (JVal.jint 0))),
          freedom_to_make_life_choices :=
            pyRoundN 2 (safe_float (pyGetD entry.freedom_to_make_life_choices (JVal.jint 0))) }
          :: r.1.social,
        { perception_id := rid + 20000, report_id := rid,
          generosity := pyRoundN 2 (safe_float (pyGetD entry.generosity (JVal.jint 0))),
          perceptions_of_corruption :=
            pyRoundN 2 (safe_float (pyGetD entry.perceptions_of_corruption (JVal.jint 0))) }
          :: r.1.perception⟩, r.2)

/-- Source `generate_dml_from_json.generate_dml`, outer loop: countries
in ascending id order, counter threaded across countries. -/
def genA_countries (all : List (Nat × List FEntry)) (counter : Nat) :
    List JVal → DmlRows × Nat
  | [] => (⟨[], [], [], []⟩, counter)
  | cid :: rest =>
    let r1 := genA_years cid counter all
    let r2 := genA_countries all r1.2 rest
    (r1.1.concat r2.1, r2.2)

/-- Output of the JSON-driven Emitter: the country batch and the four
row batches the SQL text is printed from. -/
structure DmlA where
  countries : List CtryA
  rows : DmlRows
deriving Repr

/-- Source `generate_dml_from_json.generate_dml` (JSON-driven variant):
extract countries, sort by id, and emit rows per (country, year) found
in the corpus, with the fresh counter starting at 10001.  The corpus is
the year-keyed data in ascending year order (the loader sorts
filenames). -/
def generate_dml_A (all : List (Nat × List FEntry)) : DmlA :=
  let sorted := (extract_countries [] all).insertionSort
    (fun p q => jvalKey p.1 ≤ jvalKey q.1)
  { countries := sorted,
    rows := (genA_countries all 10001 (sorted.map (fun c => c.1))).1 }

/-- The region table of both Emitters, as `sorted(REGIONS.items())`. -/
def REGIONS_SORTED : List (Nat × String) :=
  [(1, "South Asia"),
   (2, "Central and Eastern Europe"),
   (3, "Sub-Saharan Africa"),
   (4, "Latin America and Caribbean"),
   (5, "Commonwealth of Independent States"),
   (6, "North America and ANZ"),
   (7, "Western Europe"),
   (8, "Southeast Asia"),
   (9, "East Asia"),
   (10, "Middle East and North Africa")]

/-- The region ids of the region batch, as JSON ints. -/
def regionJVals : List JVal :=
  REGIONS_SORTED.map (fun p => JVal.jint (p.1 : Int))

/-- The static 171-country table of the maximal-coverage Emitter
(`COUNTRIES` in `Data_Generate_Dml/generate_dml_from_json.py`). -/
def COUNTRIES_B : List (Nat × String × Nat) :=
  [(1, "Switzerland", 7), (2, "Iceland", 7), (3, "Denmark", 7),
   (4, "Norway", 7), (5, "Canada", 6), (6, "Finland", 7),
   (7, "Netherlands", 7), (8, "Sweden", 7), (9, "New Zealand", 6),
   (10, "Australia", 6), (11, "Israel", 10), (12, "Costa Rica", 4),
   (13, "Austria", 7), (14, "Mexico", 4), (15, "United States", 6),
   (16, "Brazil", 4), (17, "Luxembourg", 7), (18, "Ireland", 7),
   (19, "Belgium", 7), (20, "United Arab Emirates", 10), (21, "United Kingdom", 7),
   (22, "Oman", 10), (23, "Venezuela", 4), (24, "Singapore", 8),
   (25, "Panama", 4), (26, "Germany", 7), (27, "Chile", 4),
   (28, "Qatar", 10), (29, "France", 7), (30, "Argentina", 4),
   (31, "Czech Republic", 2), (32, "Uruguay", 4), (33, "Colombia", 4),
   (34, "Thailand", 8), (35, "Saudi Arabia", 10), (36, "Spain", 7),
   (37, "Malta", 7), (38, "Kuwait", 10), (39, "Suriname", 4),
   (40, "Trinidad and Tobago", 4), (41, "El Salvador", 4), (42, "Guatemala", 4),
   (43, "Uzbekistan", 5), (44, "Slovakia", 2), (45, "Japan", 9),
   (46, "South Korea", 9), (47, "Ecuador", 4), (48, "Bahrain", 10),
   (49, "Italy", 7), (50, "Bolivia", 4), (51, "Moldova", 5),
   (52, "Paraguay", 4), (53, "Kazakhstan", 5), (54, "Slovenia", 2),
   (55, "Lithuania", 2), (56, "Nicaragua", 4), (57, "Peru", 4),
   (58, "Belarus", 5), (59, "Poland", 2), (60, "Malaysia", 8),
   (61, "Croatia", 2), (62, "Libya", 10), (63, "Russia", 5),
   (64, "Jamaica", 4), (65, "North Cyprus", 7), (66, "Cyprus", 7),
   (67, "Algeria", 10), (68, "Kosovo", 2), (69, "Turkmenistan", 5),
   (70, "Mauritius", 3), (71, "Estonia", 2), (72, "Indonesia", 8),
   (73, "Vietnam", 8), (74, "Turkey", 10), (75, "Kyrgyzstan", 5),
   (76, "Nigeria", 3), (77, "Bhutan", 1), (78, "Azerbaijan", 5),
   (79, "Pakistan", 1), (80, "Montenegro", 2), (81, "Jordan", 10),
   (82, "Zambia", 3), (83, "Romania", 2), (84, "Serbia", 2),
   (85, "Portugal", 7), (86, "Latvia", 2), (87, "Philippines", 8),
   (88, "Somaliland region", 3), (89, "Morocco", 10), (90, "Macedonia", 2),
   (91, "Mozambique", 3), (92, "Albania", 2), (93, "Bosnia and Herzegovina", 2),
   (94, "Lesotho", 3), (95, "Dominican Republic", 4), (96, "Laos", 8),
   (97, "Mongolia", 9), (98, "Swaziland", 3), (99, "Greece", 7),
   (100, "Lebanon", 10), (101, "Hungary", 2), (102, "Honduras", 4),
   (103, "Tajikistan", 5), (104, "Tunisia", 10), (105, "Palestinian Territories", 10),
   (106, "Bangladesh", 1), (107, "Iran", 10), (108, "Ukraine", 5),
   (109, "Iraq", 10), (110, "South Africa", 3), (111, "Ghana", 3),
   (112, "Zimbabwe", 3), (113, "Liberia", 3), (114, "India", 1),
   (115, "Sudan", 3), (116, "Haiti", 4), (117, "Democratic Republic of the Congo", 3),
   (118, "Nepal", 1), (119, "Ethiopia", 3), (120, "Sierra Leone", 3),
   (121, "Mauritania", 3), (122, "Kenya", 3), (123, "Djibouti", 3),
   (124, "Armenia", 5), (125, "Botswana", 3), (126, "Myanmar", 8),
   (127, "Georgia", 5), (128, "Malawi", 3), (129, "Sri Lanka", 1),
   (130, "Cameroon", 3), (131, "Bulgaria", 2), (132, "Egypt", 10),
   (133, "Yemen", 10), (134, "Angola", 3), (135, "Mali", 3),
   (136, "Republic of the Congo", 3), (137, "Comoros", 3), (138, "Uganda", 3),
   (139, "Senegal", 3), (140, "Gabon", 3), (141, "Niger", 3),
   (142, "Cambodia", 8), (143, "Tanzania", 3), (144, "Madagascar", 3),
   (145, "Central African Republic", 3), (146, "Chad", 3), (147, "Guinea", 3),
   (148, "Ivory Coast", 3), (149, "Burkina Faso", 3), (150, "Afghanistan", 1),
   (151, "Rwanda", 3), (152, "Benin", 3), (153, "Syria", 10),
   (154, "Burundi", 3), (155, "Togo", 3), (156, "Somalia", 3),
   (157, "South Sudan", 3), (158, "Namibia", 3), (159, "Belize", 4),
   (160, "Puerto Rico", 4), (161, "Taiwan", 9), (162, "China", 9),
   (163, "Argelia", 10), (164, "Trinidad & Tobago", 4), (165, "Gambia", 3),
   (166, "Maldives", 1), (167, "North Macedonia", 2), (168, "Czechia", 2),
   (169, "Eswatini", 3), (170, "State of Palestine", 10), (171, "Turkiye", 10)]

/-- The Emitter's year range 2015-2024 (`range(2015, 2025)`). -/
def YEARS_B : List Nat := List.range' 2015 10

/-- Python `int(s)`: optional sign and digits only (whitespace
tolerated), `none` when `int` would raise. -/
def intOfString (s : String) : Option Int :=
  let cs := (pyStrip s).data
  let sgn := readSign cs
  let d := readDigitsAux 0 0 sgn.2
  if d.2.1 = 0 ∨ d.2.2 ≠ [] then none
  else some (if sgn.1 then -(d.1 : Int) else (d.1 : Int))

/-- Source `safe_float` of the maximal-coverage Emitter: `None` or an
unparseable value falls back to a seeded-random draw in
`[default_min, default_max]` (the random source is the parameter
`rand`); every result is rounded to 3 decimals. -/
def safe_float_rand (rand : Rat → Rat → Rat) (value : JVal) (lo hi : Rat) : Rat :=
  match value with
  | JVal.jnull => pyRoundN 3 (rand lo hi)
  | JVal.jint n => pyRoundN 3 (n : Rat)
  | JVal.jnum q => pyRoundN 3 q
  | JVal.jstr s =>
    match floatOfString s with
    | none => pyRoundN 3 (rand lo hi)
    | some q => pyRoundN 3 q

/-- Source `safe_int` of the maximal-coverage Emitter: `None` or an
unparseable value falls back to a random integer draw (`randInt`). -/
def safe_int_rand (randInt : Int → Int → Int) (value : JVal) (lo hi : Int) : Int :=
  match value with
  | JVal.jnull => randInt lo hi
  | JVal.jint n => n
  | JVal.jnum q => ratTrunc q
  | JVal.jstr s =>
    match intOfString s with
    | none => randInt lo hi
    | some n => n

/-- One country-year record of the maximal-coverage Emitter. -/
structure RowData where
  ranking : Int
  happiness_score : Rat
  dystopia_residual : Rat
  gdp_per_capita : Rat
  social_support : Rat
  healthy_life_expectancy : Rat
  freedom_to_make_life_choices : Rat
  generosity : Rat
  perceptions_of_corruption : Rat
deriving DecidableEq, Repr

/-- Source `get_country_data`: take the entry's values when the corpus
has `(year, country_name)`, otherwise fabricate a full record from
random draws in the documented realistic ranges. -/
def get_country_data (rand : Rat → Rat → Rat) (randInt : Int → Int → Int)
    (json : Nat → String → Option FEntry) (name : String) (year : Nat) : RowData :=
  match json year name with
  | some entry =>
    { ranking := safe_int_rand randInt (pyGet entry.ranking) 1 171,
      happiness_score := pyRoundN 2 (safe_float_rand rand (pyGet entry.happiness_score) 3 (15 / 2)),
      dystopia_residual :=
        pyRoundN 3 (safe_float_rand rand (pyGet entry.dystopia_residual) (1 / 10) (1 / 5)),
      gdp_per_capita := pyRoundN 2 (safe_float_rand rand (pyGet entry.gdp_per_capita) (3 / 10) (3 / 2)),
      social_support := pyRoundN 2 (safe_float_rand rand (pyGet entry.social_support) (1 / 2) (3 / 2)),
      healthy_life_expectancy :=
        pyRoundN 2 (safe_float_rand rand (pyGet entry.healthy_life_expectancy) (3 / 10) 1),
      freedom_to_make_life_choices :=
        pyRoundN 2 (safe_float_rand rand (pyGet entry.freedom_to_make_life_choices) (1 / 5) (3 / 5)),
      generosity := pyRoundN 3 (safe_float_rand rand (pyGet entry.generosity) (-1 / 10) (3 / 10)),
      perceptions_of_corruption :=
        pyRoundN 3 (safe_float_rand rand (pyGet entry.perceptions_of_corruption) (1 / 20) (1 / 2)) }
  | none =>
    { ranking := randInt 1 171,
      happiness_score := pyRoundN 2 (rand 3 (15 / 2)),
      dystopia_residual := pyRoundN 3 (rand (1 / 10) (1 / 5)),
      gdp_per_capita := pyRoundN 2 (rand (3 / 10) (3 / 2)),
      social_support := pyRoundN 2 (rand (1 / 2) (3 / 2)),
      healthy_life_expectancy := pyRoundN 2 (rand (3 / 10) 1),
      freedom_to_make_life_choices := pyRoundN 2 (rand (1 / 5) (3 / 5)),
      generosity := pyRoundN 3 (rand (-1 / 10) (3 / 10)),
      perceptions_of_corruption := pyRoundN 3 (rand (1 / 20) (1 / 2)) }

/-- Source `load_json_data` dict `{entry.get('country_name',''): entry}`
per year: the lookup a corpus list induces, with Python dict comprehension
semantics (duplicate names: the last entry wins). -/
def corpusLookup (all : List (Nat × List FEntry)) (year : Nat) (name : String) :
    Option FEntry :=
  match all.find? (fun ye => ye.1 == year) with
  | none => none
  | some ye =>
    ye.2.reverse.find? (fun e => pyGetD e.country_name (JVal.jstr "") == JVal.jstr name)

/-- A `happiness_report` row of the maximal-coverage Emitter. -/
structure BHRow where
  report_id : Nat
  country_id : Nat
  year : Nat
  ranking : Int
  happiness_score : Rat
  dystopia_residual : Rat
deriving DecidableEq, Repr

/-- An `economic_indicator` row of the maximal-coverage Emitter. -/
structure BERow where
  economic_id : Nat
  report_id : Nat
  gdp_per_capita : Rat
deriving DecidableEq, Repr

/-- A `social_indicator` row of the maximal-coverage Emitter. -/
structure BSRow where
  social_id : Nat
  report_id : Nat
  social_support : Rat
  healthy_life_expectancy : Rat
  freedom_to_make_life_choices : Rat
deriving DecidableEq, Repr

/-- A `perception_indicator` row of the maximal-coverage Emitter. -/
structure BPRow where
  perception_id : Nat
  report_id : Nat
  generosity : Rat
  perceptions_of_corruption : Rat
deriving DecidableEq, Repr

/-- The four per-table row lists of the maximal-coverage Emitter. -/
structure DmlRowsB where
  happiness : List BHRow
  economic : List BERow
  social : List BSRow
  perception : List BPRow
deriving DecidableEq, Repr

/-- Concatenation of row collections. -/
def DmlRowsB.concat (a b : DmlRowsB) : DmlRowsB :=
  ⟨a.happiness ++ b.happiness, a.economic ++ b.economic,
   a.social ++ b.social, a.perception ++ b.perception⟩

/-- Source inner year loop of the maximal-coverage `generate_dml`
(lines 352-376): one row per table for EVERY year, unconditionally,
threading the dense `report_id` counter from 10001. -/
def genB_years (rand : Rat → Rat → Rat) (randInt : Int → Int → Int)
    (json : Nat → String → Option FEntry) (cid : Nat) (name : String) (counter : Nat) :
    List Nat → DmlRowsB × Nat
  | [] => (⟨[], [], [], []⟩, counter)
  | year :: rest =>
    let data := get_country_data rand randInt json name year
    let r := genB_years rand randInt json cid name (counter + 1) rest
    (⟨{ report_id := counter, country_id := cid, year := year,
        ranking := data.ranking, happiness_score := data.happiness_score,
        dystopia_residual := data.dystopia_residual } :: r.1.happiness,
      { economic_id := counter, report_id := counter,
        gdp_per_capita := data.gdp_per_capita } :: r.1.economic,
      { social_id := counter + 10000, report_id := counter,
        social_support := data.social_support,
        healthy_life_expectancy := data.healthy_life_expectancy,
        freedom_to_make_life_choices := data.freedom_to_make_life_choices } :: r.1.social,
      { perception_id := counter + 20000, report_id := counter,
        generosity := data.generosity,
        perceptions_of_corruption := data.perceptions_of_corruption } :: r.1.perception⟩,
     r.2)

/-- Source outer country loop of the maximal-coverage `generate_dml`. -/
def genB_countries (rand : Rat → Rat → Rat) (randInt : Int → Int → Int)
    (json : Nat → String → Option FEntry) (counter : Nat) :
    List (Nat × String × Nat) → DmlRowsB × Nat
  | [] => (⟨[], [], [], []⟩, counter)
  | c :: rest =>
    let r1 := genB_years rand randInt json c.1 c.2.1 counter YEARS_B
    let r2 := genB_countries rand randInt json r1.2 rest
    (r1.1.concat r2.1, r2.2)

/-- Output of the maximal-coverage Emitter: the static country batch
and the four row batches. -/
structure DmlB where
  countries : List (Nat × String × Nat)
  rows : DmlRowsB
deriving Repr

/-- Source `generate_dml` of the maximal-coverage variant: the full
COUNTRIES × YEARS product over the static table, fresh counter from
10001, fabricating any missing (country, year) data. -/
def generate_dml_B (rand : Rat → Rat → Rat) (randInt : Int → Int → Int)
    (json : Nat → String → Option FEntry) : DmlB :=
  { countries := COUNTRIES_B,
    rows := (genB_countries rand randInt json 10001 COUNTRIES_B).1 }

/-- Source `main` of the JSON-driven Emitter: abort with no output when
the corpus directory is missing or no year files load; write otherwise. -/
def mainA (dirExists : Bool) (all : List (Nat × List FEntry)) : Option DmlA :=
  if !dirExists then none
  else if all.isEmpty then none
  else some (generate_dml_A all)

/-- Source `load_json_data` of the maximal-coverage Emitter: a missing
directory is only reported; the loaded corpus is then empty. -/
def load_json_data_B (dirExists : Bool) (all : List (Nat × List FEntry)) :
    List (Nat × List FEntry) :=
  if !dirExists then [] else all

/-- Source `main` of the maximal-coverage Emitter: generate and write
the SQL artifact unconditionally, whatever the corpus. -/
def mainB (rand : Rat → Rat → Rat) (randInt : Int → Int → Int)
    (dirExists : Bool) (all : List (Nat × List FEntry)) : Option DmlB :=
  some (generate_dml_B rand randInt (corpusLookup (load_json_data_B dirExists all)))

/-- A degenerate random source (used only to instantiate theorems). -/
def rand0 : Rat → Rat → Rat := fun x _ => x

/-- A degenerate random integer source. -/
def randInt0 : Int → Int → Int := fun x _ => x

/-- A one-entry corpus whose record carries the unresolved-region
sentinel `region_id = 0`. -/
def badCorpus : List (Nat × List FEntry) :=
  [(2015, [{ country_name := some (JVal.jstr "X"),
             country_id := some (JVal.jint 1),
             region_id := some (JVal.jint 0) }])]

/-- A one-entry corpus whose record carries a region id from the fixed
region table. -/
def goodCorpus : List (Nat × List FEntry) :=
  [(2015, [{ country_name := some (JVal.jstr "Finland"),
             country_id := some (JVal.jint 1),
             region_id := some (JVal.jint 7) }])]

/-- A small concrete two-file corpus (Finland appears in both files). -/
def sampleFiles : List (List AEntry) :=
  [[{ country_name := some "Finland", ranking := some 1 },
    { country_name := some "Denmark", ranking := some 2 }],
   [{ country_name := some "Finland", ranking := some 3 }]]

/-- A concrete record for evaluating the Identity Assigner. -/
def sampleEntry : AEntry :=
  { region_name := some "Western Europe", country_name := some "Finland",
    ranking := some 1 }

theorem commaToDotChar_idem (c : Char) :
    commaToDotChar (commaToDotChar c) = commaToDotChar c := by
  by_cases h : c = ','
  · subst h; rfl
  · simp [commaToDotChar, h]

theorem commaToDot_idem (s : String) : commaToDot (commaToDot s) = commaToDot s := by
  have h : commaToDotChar ∘ commaToDotChar = commaToDotChar := funext commaToDotChar_idem
  simp [commaToDot, List.map_map, h]

theorem fix_decimal_format_idem (v : JVal) :
    fix_decimal_format (fix_decimal_format v) = fix_decimal_format v := by
  cases v <;> simp [fix_decimal_format, commaToDot_idem]

theorem fix_entry_idem (e : FEntry) : fix_entry (fix_entry e) = fix_entry e := by
  simp [fix_entry, pyGet, pyGetD, fix_decimal_format_idem]

theorem regionIdIsZero_fix_entry (e : FEntry) (h : regionIdIsZero e.region_id = false) :
    regionIdIsZero (fix_entry e).region_id = false := by
  show regionIdIsZero (some (pyGet e.region_id)) = false
  cases hv : e.region_id with
  | none => rfl
  | some v => rw [hv] at h; exact h

theorem fix_records_eq_filter_map (data : List FEntry) :
    (fix_records data).1 =
      (data.filter (fun x => !regionIdIsZero x.region_id)).map fix_entry := by
  induction data with
  | nil => simp [fix_records]
  | cons e rest ih =>
    by_cases h : regionIdIsZero e.region_id <;>
      simp [fix_records, h, ih, List.filter_cons]

/-- C4: after the Integrity Filter (`fix_json_data.fix_json_file`) no
record with `region_id == 0` remains in the output, and the removed
count equals entries-before minus entries-after. -/
theorem region_sentinel_exclusion (data : List FEntry) :
    (fix_records data).1.countP (fun e => regionIdIsZero e.region_id) = 0 ∧
    data.length = (fix_records data).1.length + (fix_records data).2 := by
  induction data with
  | nil => simp [fix_records]
  | cons e rest ih =>
    obtain ⟨ih1, ih2⟩ := ih
    cases h : regionIdIsZero e.region_id with
    | true =>
      refine ⟨by simpa [fix_records, h] using ih1, ?_⟩
      simp only [fix_records, h, if_true, List.length_cons]
      omega
    | false =>
      have hz := regionIdIsZero_fix_entry e h
      refine ⟨?_, ?_⟩
      · simp [fix_records, h, List.countP_cons, hz, ih1]
      · simp only [fix_records, h, Bool.false_eq_true, if_false, List.length_cons]
        omega

/-- C7: the Integrity Filter's record transform is idempotent: applied
to a collection that is already its own output, it removes nothing and
changes no field. -/
theorem cleaning_idempotent (data : List FEntry) :
    fix_records (fix_records data).1 = ((fix_records data).1, 0) := by
  induction data with
  | nil => simp [fix_records]
  | cons e rest ih =>
    cases h : regionIdIsZero e.region_id with
    | true => simpa [fix_records, h] using ih
    | false =>
      have hz := regionIdIsZero_fix_entry e h
      simp [fix_records, h, hz, fix_entry_idem, ih]

/-- C10: a record is removed only when its `region_id` is a present
numeric zero; a record whose `region_id` field is absent or null passes
the filter and is written out with a null `region_id`. -/
theorem absent_region_retained (data : List FEntry) (e : FEntry)
    (hreg : e.region_id = none ∨ e.region_id = some JVal.jnull)
    (hmem : e ∈ data) :
    (fix_records data).1 =
      (data.filter (fun x => !regionIdIsZero x.region_id)).map fix_entry ∧
    regionIdIsZero e.region_id = false ∧
    fix_entry e ∈ (fix_records data).1 ∧
    (fix_entry e).region_id = some JVal.jnull := by
  have hz : regionIdIsZero e.region_id = false := by
    rcases hreg with h | h <;> simp [regionIdIsZero, h]
  refine ⟨fix_records_eq_filter_map data, hz, ?_, ?_⟩
  · rw [fix_records_eq_filter_map data]
    exact List.mem_map_of_mem fix_entry (List.mem_filter.mpr ⟨hmem, by simp [hz]⟩)
  · rcases hreg with h | h <;> simp [fix_entry, pyGet, h]

/-- Witness for C10 at a concrete one-record collection whose record
has a null `region_id`. -/
theorem absent_region_retained_witness :
    fix_entry { region_id := some JVal.jnull } ∈
      (fix_records [{ region_id := some JVal.jnull }]).1 ∧
    (fix_entry { region_id := some JVal.jnull : FEntry }).region_id = some JVal.jnull :=
  ⟨(absent_region_retained [{ region_id := some JVal.jnull }] _ (Or.inr rfl)
      (List.mem_singleton.mpr rfl)).2.2.1,
   (absent_region_retained [{ region_id := some JVal.jnull }] _ (Or.inr rfl)
      (List.mem_singleton.mpr rfl)).2.2.2⟩

theorem lookup_ofKeysFrom_of_mem (c : String) (n : Nat) (ks : List String)
    (h : c ∈ ks) :
    lookupCountry (ofKeysFrom n ks) c = some (n + pos1 c ks) := by
  induction ks generalizing n with
  | nil => cases h
  | cons k ks ih =>
    by_cases hk : k = c
    · subst hk
      simp [lookupCountry, ofKeysFrom, pos1, List.find?_cons_of_pos]
    · rcases List.mem_cons.mp h with h1 | h1
      · exact absurd h1.symm hk
      · have hfind : ((k, n + 1) :: ofKeysFrom (n + 1) ks).find?
            (fun p => p.1 == c) = (ofKeysFrom (n + 1) ks).find? (fun p => p.1 == c) :=
          List.find?_cons_of_neg _ (by simpa using hk)
        have hih := ih (n + 1) h1
        simp only [ofKeysFrom, lookupCountry, hfind] at *
        rw [hih]
        simp only [pos1, if_neg hk, Option.some.injEq]
        omega

theorem lookup_ofKeysFrom_of_not_mem (c : String) (n : Nat) (ks : List String)
    (h : c ∉ ks) :
    lookupCountry (ofKeysFrom n ks) c = none := by
  induction ks generalizing n with
  | nil => rfl
  | cons k ks ih =>
    have hk : k ≠ c := fun he => h (he ▸ List.mem_cons_self k ks)
    have hfind : ((k, n + 1) :: ofKeysFrom (n + 1) ks).find?
        (fun p => p.1 == c) = (ofKeysFrom (n + 1) ks).find? (fun p => p.1 == c) :=
      List.find?_cons_of_neg _ (by simpa using hk)
    have hm : c ∉ ks := fun hc => h (List.mem_cons_of_mem k hc)
    simp only [ofKeysFrom, lookupCountry, hfind]
    simpa [lookupCountry] using ih (n + 1) hm

theorem length_ofKeysFrom (n : Nat) (ks : List String) :
    (ofKeysFrom n ks).length = ks.length := by
  induction ks generalizing n with
  | nil => rfl
  | cons k ks ih => simp [ofKeysFrom, ih]

theorem ofKeysFrom_append (n : Nat) (ks : List String) (c : String) :
    ofKeysFrom n (ks ++ [c]) = ofKeysFrom n ks ++ [(c, n + ks.length + 1)] := by
  induction ks generalizing n with
  | nil => rfl
  | cons k ks ih =>
    show (k, n + 1) :: ofKeysFrom (n + 1) (ks ++ [c]) =
      (k, n + 1) :: (ofKeysFrom (n + 1) ks ++ [(c, n + (ks.length + 1) + 1)])
    rw [ih (n + 1)]
    have harith : n + 1 + ks.length + 1 = n + (ks.length + 1) + 1 := by omega
    rw [harith]

theorem pos1_append_of_mem (c : String) (ks l : List String) (h : c ∈ ks) :
    pos1 c (ks ++ l) = pos1 c ks := by
  induction ks with
  | nil => cases h
  | cons k ks ih =>
    by_cases hk : k = c
    · simp [pos1, hk]
    · rcases List.mem_cons.mp h with h1 | h1
      · exact absurd h1.symm hk
      · simp [pos1, hk, ih h1]

theorem pos1_append_self (c : String) (ks : List String) (h : c ∉ ks) :
    pos1 c (ks ++ [c]) = ks.length + 1 := by
  induction ks with
  | nil => simp [pos1]
  | cons k ks ih =>
    have hk : k ≠ c := fun he => h (he ▸ List.mem_cons_self k ks)
    have hm : c ∉ ks := fun hc => h (List.mem_cons_of_mem k hc)
    simp [pos1, hk, ih hm]

theorem firstSeen_prefix (acc cs : List String) :
    ∃ l, firstSeen acc cs = acc ++ l := by
  induction cs generalizing acc with
  | nil => exact ⟨[], by simp [firstSeen]⟩
  | cons c cs ih =>
    by_cases h : c ∈ acc
    · simpa [firstSeen, h] using ih acc
    · obtain ⟨l, hl⟩ := ih (acc ++ [c])
      exact ⟨[c] ++ l, by simp [firstSeen, h, hl]⟩

theorem firstSeen_nodup (cs acc : List String) (hacc : acc.Nodup) :
    (firstSeen acc cs).Nodup := by
  induction cs generalizing acc with
  | nil => simpa [firstSeen]
  | cons c cs ih =>
    by_cases h : c ∈ acc
    · simpa [firstSeen, h] using ih acc hacc
    · have hcons : (acc ++ [c]).Nodup := by
        rw [List.nodup_append]
        exact ⟨hacc, List.nodup_singleton c,
          fun x hx hxc => h ((List.mem_singleton.mp hxc) ▸ hx)⟩
      simpa [firstSeen, h] using ih (acc ++ [c]) hcons

theorem get_country_id_ofKeys_mem (ks : List String) (c : String) (h : c ∈ ks) :
    get_country_id (ofKeys ks) c = (pos1 c ks, ofKeys ks) := by
  unfold get_country_id
  rw [ofKeys, lookup_ofKeysFrom_of_mem c 0 ks h]
  simp [ofKeys]

theorem get_country_id_ofKeys_not_mem (ks : List String) (c : String) (h : c ∉ ks) :
    get_country_id (ofKeys ks) c = (ks.length + 1, ofKeys (ks ++ [c])) := by
  unfold get_country_id
  rw [ofKeys, lookup_ofKeysFrom_of_not_mem c 0 ks h]
  simp [ofKeys, ofKeysFrom_append, length_ofKeysFrom]

theorem runIds_ofKeys (names acc : List String) :
    (runIds (ofKeys acc) names).1 =
      names.map (fun c => pos1 c (firstSeen acc names)) ∧
    (runIds (ofKeys acc) names).2 = ofKeys (firstSeen acc names) := by
  induction names generalizing acc with
  | nil => simp [runIds, firstSeen]
  | cons c cs ih =>
    by_cases h : c ∈ acc
    · have hg := get_country_id_ofKeys_mem acc c h
      have hfs : firstSeen acc (c :: cs) = firstSeen acc cs := by
        simp [firstSeen, h]
      refine ⟨?_, ?_⟩
      · simp only [runIds, hg, hfs, List.map_cons]
        refine congrArg₂ List.cons ?_ (ih acc).1
        obtain ⟨l, hl⟩ := firstSeen_prefix acc cs
        rw [hl, pos1_append_of_mem c acc l h]
      · simp only [runIds, hg, hfs]
        exact (ih acc).2
    · have hg := get_country_id_ofKeys_not_mem acc c h
      have hfs : firstSeen acc (c :: cs) = firstSeen (acc ++ [c]) cs := by
        simp [firstSeen, h]
      refine ⟨?_, ?_⟩
      · simp only [runIds, hg, hfs, List.map_cons]
        refine congrArg₂ List.cons ?_ (ih (acc ++ [c])).1
        obtain ⟨l, hl⟩ := firstSeen_prefix (acc ++ [c]) cs
        rw [hl, pos1_append_of_mem c (acc ++ [c]) l (by simp),
          pos1_append_self c acc h]
      · simp only [runIds, hg, hfs]
        exact (ih (acc ++ [c])).2

theorem pos1_get (ks : List String) (h : ks.Nodup) (n : Nat) (hn : n < ks.length) :
    pos1 (ks.get ⟨n, hn⟩) ks = n + 1 := by
  induction ks generalizing n with
  | nil => simp at hn
  | cons k ks ih =>
    cases n with
    | zero => simp [pos1]
    | succ m =>
      have hlt : m < ks.length := by simpa using hn
      have hne : k ≠ ks.get ⟨m, hlt⟩ := by
        intro he
        exact (List.nodup_cons.mp h).1 (he ▸ List.get_mem ks m hlt)
      have hget : (k :: ks).get ⟨m + 1, hn⟩ = ks.get ⟨m, hlt⟩ := rfl
      rw [hget]
      simp only [pos1]
      rw [if_neg hne, ih (List.nodup_cons.mp h).2 m hlt]

theorem process_entries_spec (m : CMap) (es : List AEntry) :
    ((process_entries m es).1.map (fun e => e.country_id) =
      (runIds m (es.map entryName)).1.map natIdOpt) ∧
    (process_entries m es).2 = (runIds m (es.map entryName)).2 := by
  induction es generalizing m with
  | nil => simp [process_entries, runIds]
  | cons e es ih =>
    have h2 : (add_ids_to_entry m e).2 = (get_country_id m (entryName e)).2 := rfl
    have ih2 := ih (get_country_id m (entryName e)).2
    constructor
    · simp only [process_entries, runIds, List.map_cons, h2]
      exact congrArg₂ List.cons rfl ih2.1
    · simp only [process_entries, runIds, h2]
      exact ih2.2

theorem runIds_append (m : CMap) (xs ys : List String) :
    (runIds m (xs ++ ys)).1 = (runIds m xs).1 ++ (runIds (runIds m xs).2 ys).1 ∧
    (runIds m (xs ++ ys)).2 = (runIds (runIds m xs).2 ys).2 := by
  induction xs generalizing m with
  | nil => simp [runIds]
  | cons c cs ih =>
    exact ⟨congrArg₂ List.cons rfl (ih (get_country_id m c).2).1,
      (ih (get_country_id m c).2).2⟩

theorem process_files_spec (m : CMap) (files : List (List AEntry)) :
    ((process_files m files).1.flatten.map (fun e => e.country_id) =
      (runIds m (files.flatten.map entryName)).1.map natIdOpt) ∧
    (process_files m files).2 = (runIds m (files.flatten.map entryName)).2 := by
  induction files generalizing m with
  | nil => simp [process_files, runIds]
  | cons f fs ih =>
    have hpe := process_entries_spec m f
    have hih := ih (process_entries m f).2
    rw [hpe.2] at hih
    have happ := runIds_append m (f.map entryName) (fs.flatten.map entryName)
    constructor
    · simp only [process_files, List.flatten_cons, List.map_append, happ.1,
        hpe.1, hpe.2, hih.1]
    · simp only [process_files, List.flatten_cons, List.map_append, happ.2,
        hpe.2, hih.2]

/-- C1: in one Identity Assigner run over a sequence of year files, the
`country_id` assigned to every occurrence of a country name is a
function of that name alone (hence identical across files), determined
by the single threaded map: it is the 1-based first-seen position of
the name; consequently the n-th distinct name encountered gets id n. -/
theorem country_id_stability (files : List (List AEntry)) (n : Nat)
    (hn : n < (firstSeen [] (files.flatten.map entryName)).length) :
    ((process_files [] files).1.flatten.map (fun e => e.country_id) =
      (files.flatten.map entryName).map
        (fun c => natIdOpt (pos1 c (firstSeen [] (files.flatten.map entryName))))) ∧
    pos1 ((firstSeen [] (files.flatten.map entryName)).get ⟨n, hn⟩)
      (firstSeen [] (files.flatten.map entryName)) = n + 1 := by
  have hrun := runIds_ofKeys (files.flatten.map entryName) []
  have hpf := process_files_spec [] files
  constructor
  · rw [hpf.1]
    have h0 : (ofKeys [] : CMap) = [] := rfl
    rw [← h0, hrun.1, List.map_map]
    rfl
  · exact pos1_get _ (firstSeen_nodup _ [] List.nodup_nil) n hn

/-- Witness for C1 on a concrete two-file corpus where Finland appears
in both files: both occurrences get id 1, Denmark gets id 2. -/
theorem country_id_stability_witness :
    (process_files [] sampleFiles).1.flatten.map (fun e => e.country_id) =
      (sampleFiles.flatten.map entryName).map
        (fun c => natIdOpt (pos1 c (firstSeen [] (sampleFiles.flatten.map entryName)))) :=
  (country_id_stability sampleFiles 0 (by decide)).1

/-- C5: the Identity Assigner derives `report_id = country_id * 1000 +
ranking`, `economic_id = report_id*10+1`, `social_id = report_id*10+2`,
`perception_id = report_id*10+3`, resolves `region_id` by exact lookup
in the fixed 10-entry region table with sentinel `0` for unresolved
names, and adds the id fields without removing any existing field. -/
theorem id_derivation (m : CMap) (e : AEntry) :
    (add_ids_to_entry m e).1.region_id =
      some (regionLookup (e.region_name.getD "")) ∧
    (add_ids_to_entry m e).1.country_id =
      some ((get_country_id m (e.country_name.getD "")).1 : Int) ∧
    (add_ids_to_entry m e).1.report_id =
      some (((get_country_id m (e.country_name.getD "")).1 : Int) * 1000 +
        e.ranking.getD 1) ∧
    (add_ids_to_entry m e).1.economic_id =
      some ((((get_country_id m (e.country_name.getD "")).1 : Int) * 1000 +
        e.ranking.getD 1) * 10 + 1) ∧
    (add_ids_to_entry m e).1.social_id =
      some ((((get_country_id m (e.country_name.getD "")).1 : Int) * 1000 +
        e.ranking.getD 1) * 10 + 2) ∧
    (add_ids_to_entry m e).1.perception_id =
      some ((((get_country_id m (e.country_name.getD "")).1 : Int) * 1000 +
        e.ranking.getD 1) * 10 + 3) ∧
    (∀ name, name ∉ REGION_MAP.map Prod.fst → regionLookup name = 0) ∧
    (add_ids_to_entry m e).1.ranking = e.ranking ∧
    (add_ids_to_entry m e).1.country_name = e.country_name ∧
    (add_ids_to_entry m e).1.region_name = e.region_name ∧
    (add_ids_to_entry m e).1.happiness_score = e.happiness_score ∧
    (add_ids_to_entry m e).1.gdp_per_capita = e.gdp_per_capita ∧
    (add_ids_to_entry m e).1.social_support = e.social_support ∧
    (add_ids_to_entry m e).1.healthy_life_expectancy = e.healthy_life_expectancy ∧
    (add_ids_to_entry m e).1.freedom_to_make_life_choices = e.freedom_to_make_life_choices ∧
    (add_ids_to_entry m e).1.generosity = e.generosity ∧
    (add_ids_to_entry m e).1.perceptions_of_corruption = e.perceptions_of_corruption ∧
    (add_ids_to_entry m e).1.dystopia_residual = e.dystopia_residual := by
  refine ⟨rfl, rfl, rfl, rfl, rfl, rfl, ?_, rfl, rfl, rfl, rfl, rfl, rfl, rfl,
    rfl, rfl, rfl, rfl⟩
  intro name hname
  have hfind : REGION_MAP.find? (fun p => p.1 == name) = none := by
    rw [List.find?_eq_none]
    intro x hx
    simp only [beq_iff_eq]
    intro hxe
    exact hname (hxe ▸ List.mem_map_of_mem Prod.fst hx)
  simp [regionLookup, hfind]

/-- Witness for C5: the sentinel applies at an unresolved region name,
and the derived ids evaluate on a concrete record. -/
theorem id_derivation_witness :
    regionLookup "Atlantis" = 0 ∧
    (add_ids_to_entry [] sampleEntry).1.report_id = some 1001 :=
  ⟨(id_derivation [] sampleEntry).2.2.2.2.2.2.1 "Atlantis" (by decide),
   by decide⟩

theorem dropWhile_dropWhile (p : Char → Bool) (l : List Char) :
    (l.dropWhile p).dropWhile p = l.dropWhile p := by
  induction l with
  | nil => rfl
  | cons c cs ih =>
    by_cases h : p c
    · simpa [List.dropWhile_cons, h] using ih
    · simp [List.dropWhile_cons, h]

theorem dropWhile_len_le (p : Char → Bool) (l : List Char) :
    (l.dropWhile p).length ≤ l.length := by
  induction l with
  | nil => simp
  | cons c cs ih =>
    by_cases h : p c
    · simp only [List.dropWhile_cons, h, if_true, List.length_cons]
      omega
    · simp [List.dropWhile_cons, h]

theorem dropWhile_head_false (p : Char → Bool) (l : List Char)
    (hl : l.dropWhile p = l) (c : Char) (cs : List Char) (hc : l = c :: cs) :
    p c = false := by
  subst hc
  by_contra h
  have h1 : p c = true := by simpa using h
  rw [List.dropWhile_cons, if_pos h1] at hl
  have h2 := congrArg List.length hl
  have h3 := dropWhile_len_le p cs
  simp at h2
  omega

theorem stripEnd_fix (p : Char → Bool) (m : List Char) (hm : m.dropWhile p = m) :
    ((m.reverse.dropWhile p).reverse).dropWhile p = (m.reverse.dropWhile p).reverse := by
  have hdec : m = (m.reverse.dropWhile p).reverse ++ (m.reverse.takeWhile p).reverse := by
    conv_lhs => rw [← List.reverse_reverse m,
      ← List.takeWhile_append_dropWhile (p := p) (l := m.reverse)]
    rw [List.reverse_append]
  cases hSc : (m.reverse.dropWhile p).reverse with
  | nil => rfl
  | cons c cs =>
    have hc : p c = false := by
      apply dropWhile_head_false p m hm c (cs ++ (m.reverse.takeWhile p).reverse)
      conv_lhs => rw [hdec, hSc]
      rfl
    rw [List.dropWhile_cons, if_neg (by simp [hc])]

theorem pyStrip_idem (s : String) : pyStrip (pyStrip s) = pyStrip s := by
  unfold pyStrip
  congr 1
  show ((((((s.data.dropWhile Char.isWhitespace).reverse.dropWhile
      Char.isWhitespace).reverse).dropWhile Char.isWhitespace).reverse.dropWhile
      Char.isWhitespace)).reverse = _
  rw [stripEnd_fix Char.isWhitespace (s.data.dropWhile Char.isWhitespace)
    (dropWhile_dropWhile Char.isWhitespace s.data)]
  rw [List.reverse_reverse, dropWhile_dropWhile]

theorem ws_commaToDotChar (c : Char) :
    (commaToDotChar c).isWhitespace = c.isWhitespace := by
  by_cases h : c = ','
  · subst h; decide
  · simp [commaToDotChar, h]

theorem dropWhile_map_comma (l : List Char) :
    (l.map commaToDotChar).dropWhile Char.isWhitespace =
      (l.dropWhile Char.isWhitespace).map commaToDotChar := by
  induction l with
  | nil => rfl
  | cons c cs ih =>
    by_cases h : c.isWhitespace
    · simp [List.dropWhile_cons, ws_commaToDotChar, h, ih]
    · simp [List.dropWhile_cons, ws_commaToDotChar, h]

theorem pyStrip_commaToDot (s : String) :
    pyStrip (commaToDot s) = commaToDot (pyStrip s) := by
  unfold pyStrip commaToDot
  congr 1
  show (((s.data.map commaToDotChar).dropWhile Char.isWhitespace).reverse.dropWhile
      Char.isWhitespace).reverse = _
  rw [dropWhile_map_comma, ← List.map_reverse, dropWhile_map_comma, ← List.map_reverse]

theorem commaToDot_eq_empty (s : String) : commaToDot s = "" ↔ s = "" := by
  constructor
  · intro h
    have h1 : s.data.map commaToDotChar = [] := congrArg String.data h
    have h2 : s.data = [] := List.map_eq_nil_iff.mp h1
    cases s with
    | mk d => exact congrArg String.mk h2
  · intro h
    subst h
    rfl

theorem floatOfString_commaToDot_strip (s : String) :
    floatOfString (commaToDot (pyStrip s)) = floatOfString (commaToDot s) := by
  unfold floatOfString
  rw [pyStrip_commaToDot, pyStrip_commaToDot, pyStrip_idem]

/-- C9: the Ingestor's numeric parser strips whitespace, accepts `.`
and `,` interchangeably as the decimal separator, and returns `0.0` on
a missing, blank, or unparseable value; being a total function, it
never raises. -/
theorem tolerant_parse (s : String) :
    parse_number none = 0 ∧
    parse_number (some "") = 0 ∧
    (pyStrip s = "" → parse_number (some s) = 0) ∧
    (floatOfString (commaToDot s) = none → parse_number (some s) = 0) ∧
    parse_number (some s) = parse_number (some (commaToDot s)) ∧
    parse_number (some s) = parse_number (some (pyStrip s)) := by
  refine ⟨rfl, rfl, ?_, ?_, ?_, ?_⟩
  · intro h
    simp [parse_number, h]
  · intro h
    rw [← floatOfString_commaToDot_strip] at h
    by_cases hb : pyStrip s = "" <;> simp [parse_number, hb, h]
  · by_cases hb : pyStrip s = ""
    · have hb2 : pyStrip (commaToDot s) = "" := by
        rw [pyStrip_commaToDot, hb]
        rfl
      simp [parse_number, hb, hb2]
    · have hb2 : ¬ pyStrip (commaToDot s) = "" := by
        rw [pyStrip_commaToDot]
        exact fun h => hb ((commaToDot_eq_empty (pyStrip s)).mp h)
      simp only [parse_number, hb, hb2, if_false]
      rw [pyStrip_commaToDot, commaToDot_idem]
  · by_cases hb : pyStrip s = ""
    · have h0 : parse_number (some "") = 0 := by decide
      rw [hb, h0]
      simp [parse_number, hb]
    · simp only [parse_number, hb, pyStrip_idem, if_false]

/-- Witness for C9: concrete blank and unparseable inputs both map to
`0.0`, and a comma decimal parses to the expected rational. -/
theorem tolerant_parse_witness :
    parse_number (some "   ") = 0 ∧
    parse_number (some "abc") = 0 ∧
    parse_number (some " 7,804 ") = 7804 / 1000 := by
  refine ⟨(tolerant_parse "   ").2.2.1 (by decide),
    (tolerant_parse "abc").2.2.2.1 (by decide), ?_⟩
  have hval : (floatOfString (commaToDot (pyStrip " 7,804 "))).getD 0 = 7804 / 1000 := by
    have hc : commaToDot (pyStrip " 7,804 ") = "7.804" := by decide
    have h3 : (pyStrip "7.804").data = ['7', '.', '8', '0', '4'] := by decide
    have h4 : readSign ['7', '.', '8', '0', '4'] = (false, ['7', '.', '8', '0', '4']) := by
      decide
    have h5 : readDigitsAux 0 0 ['7', '.', '8', '0', '4'] = (7, 1, ['.', '8', '0', '4']) := by
      decide
    have h6 : readDigitsAux 0 0 ['8', '0', '4'] = (804, 3, []) := by decide
    have h7 : readExpTail ([] : List Char) = some 0 := by decide
    rw [hc]
    simp only [floatOfString, h3, h4, h5, h6]
    norm_num [h7, ratPow10]
  rw [← hval]
  simp [parse_number, show ¬ pyStrip " 7,804 " = "" by decide]

theorem le_roundHalfEven (q : Rat) (k : Int) (hq : (k : Rat) ≤ q) :
    k ≤ roundHalfEven q := by
  have hf : k ≤ ⌊q⌋ := Int.le_floor.mpr hq
  simp only [roundHalfEven]
  split_ifs <;> omega

theorem roundHalfEven_le (q : Rat) (k : Int) (hq : q ≤ (k : Rat)) :
    roundHalfEven q ≤ k := by
  have hf : ⌊q⌋ ≤ k := by simpa using Int.floor_le_floor hq
  have hfl : (⌊q⌋ : Rat) ≤ q := Int.floor_le q
  simp only [roundHalfEven]
  split_ifs with h1 h2 h3
  · exact hf
  · have hc : ((⌊q⌋ : Rat) + 1 / 2) ≤ (k : Rat) := by
      have := not_lt.mp h1
      linarith
    have hck : (⌊q⌋ : Rat) < (k : Rat) := by linarith
    have : ⌊q⌋ < k := by exact_mod_cast hck
    omega
  · exact hf
  · have hc : ((⌊q⌋ : Rat) + 1 / 2) ≤ (k : Rat) := by
      have := not_lt.mp h1
      linarith
    have hck : (⌊q⌋ : Rat) < (k : Rat) := by linarith
    have : ⌊q⌋ < k := by exact_mod_cast hck
    omega

theorem pyRound3_range (d : Rat) :
    (1 / 20 : Rat) ≤ pyRound3 (max (1 / 20) (min (19 / 20) d)) ∧
    pyRound3 (max (1 / 20) (min (19 / 20) d)) ≤ 19 / 20 := by
  set c := max (1 / 20 : Rat) (min (19 / 20) d) with hc
  have h50 : (1 / 20 : Rat) ≤ c := le_max_left _ _
  have h950 : c ≤ 19 / 20 := max_le (by norm_num) (min_le_left _ _)
  have hlo : (50 : Int) ≤ roundHalfEven (c * 1000) := by
    apply le_roundHalfEven
    push_cast
    linarith
  have hhi : roundHalfEven (c * 1000) ≤ 950 := by
    apply roundHalfEven_le
    push_cast
    linarith
  unfold pyRound3
  constructor
  · have h1 : ((50 : Int) : Rat) ≤ (roundHalfEven (c * 1000) : Rat) := Int.cast_le.mpr hlo
    push_cast at h1
    linarith
  · have h1 : ((roundHalfEven (c * 1000) : Rat)) ≤ ((950 : Int) : Rat) := Int.cast_le.mpr hhi
    push_cast at h1
    linarith

/-- C6: the Normalizer's `dystopia_residual` is a deterministic
function of `(country_name, ranking, happiness_score)`, computed by the
MD5-mod-1000 uniqueness factor added to the score-derived base, clamped
into `[0.05, 0.95]` and rounded to 3 decimals; the numeric value always
lies in `[0.05, 0.95]`. -/
theorem residual_determinism_and_range (e1 e2 : CEntry) (name : String) (rank : Int)
    (score : Rat)
    (hn : e1.country_name = e2.country_name)
    (hr : e1.ranking = e2.ranking)
    (hs : e1.happiness_score = e2.happiness_score) :
    calculate_dystopia_residual e1 = calculate_dystopia_residual e2 ∧
    residual_core name rank score =
      pyRound3 (max (1 / 20 : Rat) (min (19 / 20)
        (max (1 / 10 : Rat) ((score - 5) * (3 / 10)) +
          ((md5Int (name ++ "_" ++ toString rank) % 1000 : Nat) : Rat) / 1000 * (1 / 2)))) ∧
    (1 / 20 : Rat) ≤ residual_core name rank score ∧
    residual_core name rank score ≤ 19 / 20 := by
  refine ⟨?_, rfl, (pyRound3_range _).1, (pyRound3_range _).2⟩
  unfold calculate_dystopia_residual
  rw [hn, hr, hs]

/-- Witness for C6 at a concrete country, ranking and score. -/
theorem residual_determinism_and_range_witness :
    (1 / 20 : Rat) ≤ residual_core "Finland" 1 (7804 / 1000) ∧
    residual_core "Finland" 1 (7804 / 1000) ≤ 19 / 20 :=
  ⟨(residual_determinism_and_range {} {} "Finland" 1 (7804 / 1000) rfl rfl rfl).2.2.1,
   (residual_determinism_and_range {} {} "Finland" 1 (7804 / 1000) rfl rfl rfl).2.2.2⟩

theorem genA_years_spec (cid : JVal) (counter : Nat) (all : List (Nat × List FEntry)) :
    ((genA_years cid counter all).1.economic.map ERow.report_id =
      (genA_years cid counter all).1.happiness.map HRow.report_id) ∧
    ((genA_years cid counter all).1.social.map SRow.report_id =
      (genA_years cid counter all).1.happiness.map HRow.report_id) ∧
    ((genA_years cid counter all).1.perception.map PRow.report_id =
      (genA_years cid counter all).1.happiness.map HRow.report_id) ∧
    (∀ h ∈ (genA_years cid counter all).1.happiness, h.country_id = cid) := by
  induction all generalizing counter with
  | nil => simp [genA_years]
  | cons ye rest ih =>
    cases hfe : findEntry cid ye.2 with
    | none => simpa only [genA_years, hfe] using ih counter
    | some entry =>
      have ihc := ih (counter + 1)
      simp only [genA_years, hfe, List.map_cons]
      refine ⟨congrArg₂ List.cons rfl ihc.1, congrArg₂ List.cons rfl ihc.2.1,
        congrArg₂ List.cons rfl ihc.2.2.1, ?_⟩
      intro h hm
      rcases List.mem_cons.mp hm with hm | hm
      · rw [hm]
      · exact ihc.2.2.2 h hm

theorem genA_countries_spec (all : List (Nat × List FEntry)) (counter : Nat)
    (cids : List JVal) :
    ((genA_countries all counter cids).1.economic.map ERow.report_id =
      (genA_countries all counter cids).1.happiness.map HRow.report_id) ∧
    ((genA_countries all counter cids).1.social.map SRow.report_id =
      (genA_countries all counter cids).1.happiness.map HRow.report_id) ∧
    ((genA_countries all counter cids).1.perception.map PRow.report_id =
      (genA_countries all counter cids).1.happiness.map HRow.report_id) ∧
    (∀ h ∈ (genA_countries all counter cids).1.happiness, h.country_id ∈ cids) := by
  induction cids generalizing counter with
  | nil => simp [genA_countries]
  | cons cid rest ih =>
    have h1 := genA_years_spec cid counter all
    have ih2 := ih (genA_years cid counter all).2
    simp only [genA_countries, DmlRows.concat, List.map_append]
    refine ⟨by rw [h1.1, ih2.1], by rw [h1.2.1, ih2.2.1], by rw [h1.2.2.1, ih2.2.2.1], ?_⟩
    intro h hm
    rcases List.mem_append.mp hm with hm | hm
    · rw [h1.2.2.2 h hm]
      exact List.mem_cons_self cid rest
    · exact List.mem_cons_of_mem cid (ih2.2.2.2 h hm)

theorem addCountries_region (acc : List CtryA) (es : List FEntry) (c : CtryA)
    (hc : c ∈ addCountries acc es) :
    c ∈ acc ∨ ∃ e ∈ es, c.2.2 = pyGet e.region_id := by
  induction es generalizing acc with
  | nil => exact Or.inl hc
  | cons e es ih =>
    simp only [addCountries] at hc
    rcases ih _ hc with h | h
    · by_cases hcond : (truthy (pyGet e.country_name) && truthy (pyGet e.country_id) &&
          !(acc.any (fun p => p.1 == pyGet e.country_id))) = true
      · rw [if_pos hcond] at h
        rcases List.mem_append.mp h with h2 | h2
        · exact Or.inl h2
        · have h3 : c = (pyGet e.country_id, pyGet e.country_name, pyGet e.region_id) :=
            List.mem_singleton.mp h2
          exact Or.inr ⟨e, List.mem_cons_self e es, by rw [h3]⟩
      · rw [if_neg hcond] at h
        exact Or.inl h
    · obtain ⟨e2, he2, hr⟩ := h
      exact Or.inr ⟨e2, List.mem_cons_of_mem e he2, hr⟩

theorem extract_countries_region (acc : List CtryA) (all : List (Nat × List FEntry))
    (c : CtryA) (hc : c ∈ extract_countries acc all) :
    c ∈ acc ∨ ∃ ye ∈ all, ∃ e ∈ ye.2, c.2.2 = pyGet e.region_id := by
  induction all generalizing acc with
  | nil => exact Or.inl hc
  | cons ye rest ih =>
    simp only [extract_countries] at hc
    rcases ih _ hc with h | h
    · rcases addCountries_region acc ye.2 c h with h2 | h2
      · exact Or.inl h2
      · obtain ⟨e, he, hr⟩ := h2
        exact Or.inr ⟨ye, List.mem_cons_self _ _, e, he, hr⟩
    · obtain ⟨ye2, hye, rest2⟩ := h
      exact Or.inr ⟨ye2, List.mem_cons_of_mem _ hye, rest2⟩

theorem genB_years_spec (rand : Rat → Rat → Rat) (randInt : Int → Int → Int)
    (json : Nat → String → Option FEntry) (cid : Nat) (name : String) (counter : Nat)
    (ys : List Nat) :
    ((genB_years rand randInt json cid name counter ys).1.happiness.map
        (fun h => (h.country_id, h.year)) = ys.map (fun y => (cid, y))) ∧
    ((genB_years rand randInt json cid name counter ys).1.happiness.length = ys.length) ∧
    ((genB_years rand randInt json cid name counter ys).1.economic.length = ys.length) ∧
    ((genB_years rand randInt json cid name counter ys).1.social.length = ys.length) ∧
    ((genB_years rand randInt json cid name counter ys).1.perception.length = ys.length) ∧
    ((genB_years rand randInt json cid name counter ys).1.economic.map BERow.report_id =
      (genB_years rand randInt json cid name counter ys).1.happiness.map BHRow.report_id) ∧
    ((genB_years rand randInt json cid name counter ys).1.social.map BSRow.report_id =
      (genB_years rand randInt json cid name counter ys).1.happiness.map BHRow.report_id) ∧
    ((genB_years rand randInt json cid name counter ys).1.perception.map BPRow.report_id =
      (genB_years rand randInt json cid name counter ys).1.happiness.map BHRow.report_id) ∧
    (∀ h ∈ (genB_years rand randInt json cid name counter ys).1.happiness,
      h.country_id = cid) := by
  induction ys generalizing counter with
  | nil => simp [genB_years]
  | cons y ys ih =>
    have ihc := ih (counter + 1)
    simp only [genB_years, List.map_cons, List.length_cons]
    refine ⟨congrArg₂ List.cons rfl ihc.1, by rw [ihc.2.1], by rw [ihc.2.2.1],
      by rw [ihc.2.2.2.1], by rw [ihc.2.2.2.2.1],
      congrArg₂ List.cons rfl ihc.2.2.2.2.2.1,
      congrArg₂ List.cons rfl ihc.2.2.2.2.2.2.1,
      congrArg₂ List.cons rfl ihc.2.2.2.2.2.2.2.1, ?_⟩
    intro h hm
    rcases List.mem_cons.mp hm with hm | hm
    · rw [hm]
    · exact ihc.2.2.2.2.2.2.2.2 h hm

theorem genB_countries_spec (rand : Rat → Rat → Rat) (randInt : Int → Int → Int)
    (json : Nat → String → Option FEntry) (counter : Nat)
    (cs : List (Nat × String × Nat)) :
    ((genB_countries rand randInt json counter cs).1.happiness.map
        (fun h => (h.country_id, h.year)) =
      cs.flatMap (fun c => YEARS_B.map (fun y => (c.1, y)))) ∧
    ((genB_countries rand randInt json counter cs).1.happiness.length
      = cs.length * YEARS_B.length) ∧
    ((genB_countries rand randInt json counter cs).1.economic.length
      = cs.length * YEARS_B.length) ∧
    ((genB_countries rand randInt json counter cs).1.social.length
      = cs.length * YEARS_B.length) ∧
    ((genB_countries rand randInt json counter cs).1.perception.length
      = cs.length * YEARS_B.length) ∧
    ((genB_countries rand randInt json counter cs).1.economic.map BERow.report_id =
      (genB_countries rand randInt json counter cs).1.happiness.map BHRow.report_id) ∧
    ((genB_countries rand randInt json counter cs).1.social.map BSRow.report_id =
      (genB_countries rand randInt json counter cs).1.happiness.map BHRow.report_id) ∧
    ((genB_countries rand randInt json counter cs).1.perception.map BPRow.report_id =
      (genB_countries rand randInt json counter cs).1.happiness.map BHRow.report_id) ∧
    (∀ h ∈ (genB_countries rand randInt json counter cs).1.happiness,
      h.country_id ∈ cs.map (fun c => c.1)) := by
  induction cs generalizing counter with
  | nil => simp [genB_countries]
  | cons c cs ih =>
    have h1 := genB_years_spec rand randInt json c.1 c.2.1 counter YEARS_B
    have ih2 := ih (genB_years rand randInt json c.1 c.2.1 counter YEARS_B).2
    simp only [genB_countries, DmlRowsB.concat, List.map_append, List.length_append,
      List.flatMap_cons, List.map_cons, List.length_cons]
    refine ⟨by rw [h1.1, ih2.1], ?_, ?_, ?_, ?_,
      by rw [h1.2.2.2.2.2.1, ih2.2.2.2.2.2.1],
      by rw [h1.2.2.2.2.2.2.1, ih2.2.2.2.2.2.2.1],
      by rw [h1.2.2.2.2.2.2.2.1, ih2.2.2.2.2.2.2.2.1], ?_⟩
    · rw [h1.2.1, ih2.2.1]
      ring
    · rw [h1.2.2.1, ih2.2.2.1]
      ring
    · rw [h1.2.2.2.1, ih2.2.2.2.1]
      ring
    · rw [h1.2.2.2.2.1, ih2.2.2.2.2.1]
      ring
    · intro h hm
      rcases List.mem_append.mp hm with hm | hm
      · rw [h1.2.2.2.2.2.2.2.2 h hm]
        exact List.mem_cons_self _ _
      · exact List.mem_cons_of_mem _ (ih2.2.2.2.2.2.2.2.2 h hm)

theorem nodup_pairs (ks ys : List Nat) (hk : ks.Nodup) (hy : ys.Nodup) :
    (ks.flatMap (fun k => ys.map (fun y => (k, y)))).Nodup := by
  induction ks with
  | nil => simp
  | cons k ks ih =>
    rw [List.flatMap_cons, List.nodup_append]
    refine ⟨?_, ih (List.nodup_cons.mp hk).2, ?_⟩
    · exact hy.map (fun a b hab => congrArg Prod.snd hab)
    · intro x hx1 hx2
      obtain ⟨y, hy1, hxy⟩ := List.mem_map.mp hx1
      obtain ⟨k2, hk2, hx3⟩ := List.mem_flatMap.mp hx2
      obtain ⟨y2, hy2, hxy2⟩ := List.mem_map.mp hx3
      apply (List.nodup_cons.mp hk).1
      have h1 : x.1 = k := by rw [← hxy]
      have h2 : x.1 = k2 := by rw [← hxy2]
      rw [← h2, h1] at hk2
      exact hk2

set_option maxRecDepth 8000 in
/-- C3: the maximal-coverage Emitter emits exactly 171 x 10 = 1710 rows
in each of the four tables, and the `(country_id, year)` pairs of the
happiness batch are exactly the full COUNTRIES x YEARS product — with
no duplicates — for EVERY corpus and random source, i.e. missing
(country, year) data is fabricated rather than omitted. -/
theorem dense_coverage (rand : Rat → Rat → Rat) (randInt : Int → Int → Int)
    (json : Nat → String → Option FEntry) :
    (generate_dml_B rand randInt json).rows.happiness.length = 1710 ∧
    (generate_dml_B rand randInt json).rows.economic.length = 1710 ∧
    (generate_dml_B rand randInt json).rows.social.length = 1710 ∧
    (generate_dml_B rand randInt json).rows.perception.length = 1710 ∧
    ((generate_dml_B rand randInt json).rows.happiness.map
        (fun h => (h.country_id, h.year)) =
      COUNTRIES_B.flatMap (fun c => YEARS_B.map (fun y => (c.1, y)))) ∧
    ((generate_dml_B rand randInt json).rows.happiness.map
        (fun h => (h.country_id, h.year))).Nodup := by
  have hs := genB_countries_spec rand randInt json 10001 COUNTRIES_B
  have hlen : COUNTRIES_B.length = 171 := rfl
  have hylen : YEARS_B.length = 10 := rfl
  have hprod : COUNTRIES_B.flatMap (fun c => YEARS_B.map (fun y => (c.1, y))) =
      (COUNTRIES_B.map (fun c => c.1)).flatMap
        (fun k => YEARS_B.map (fun y => (k, y))) := by
    rw [List.flatMap_map]
  refine ⟨?_, ?_, ?_, ?_, hs.1, ?_⟩
  · rw [show (generate_dml_B rand randInt json).rows =
      (genB_countries rand randInt json 10001 COUNTRIES_B).1 from rfl, hs.2.1, hlen, hylen]
  · rw [show (generate_dml_B rand randInt json).rows =
      (genB_countries rand randInt json 10001 COUNTRIES_B).1 from rfl, hs.2.2.1, hlen, hylen]
  · rw [show (generate_dml_B rand randInt json).rows =
      (genB_countries rand randInt json 10001 COUNTRIES_B).1 from rfl, hs.2.2.2.1, hlen, hylen]
  · rw [show (generate_dml_B rand randInt json).rows =
      (genB_countries rand randInt json 10001 COUNTRIES_B).1 from rfl, hs.2.2.2.2.1, hlen,
      hylen]
  · rw [show (generate_dml_B rand randInt json).rows =
      (genB_countries rand randInt json 10001 COUNTRIES_B).1 from rfl, hs.1, hprod]
    exact nodup_pairs _ _ (by decide) (List.nodup_range' 2015 10)

set_option maxRecDepth 8000 in
/-- C2 (amended): in both Emitters every satellite row's `report_id`
appears among the happiness batch's `report_id`s (the per-iteration
counter is shared), and every happiness row's `country_id` appears in
the country batch; every `region_id` in the maximal-coverage country
batch appears in the region batch unconditionally, while for the
JSON-driven variant this holds provided every corpus record's
`region_id` is an id of the fixed region table (as the upstream
Integrity Filter pipeline guarantees) — on arbitrary corpora it can
fail (see the counterexample). -/
theorem referential_completeness (all : List (Nat × List FEntry))
    (rand : Rat → Rat → Rat) (randInt : Int → Int → Int)
    (json : Nat → String → Option FEntry)
    (hreg : ∀ ye ∈ all, ∀ e ∈ ye.2, pyGet e.region_id ∈ regionJVals) :
    ((generate_dml_A all).rows.economic.map ERow.report_id =
      (generate_dml_A all).rows.happiness.map HRow.report_id) ∧
    ((generate_dml_A all).rows.social.map SRow.report_id =
      (generate_dml_A all).rows.happiness.map HRow.report_id) ∧
    ((generate_dml_A all).rows.perception.map PRow.report_id =
      (generate_dml_A all).rows.happiness.map HRow.report_id) ∧
    (∀ h ∈ (generate_dml_A all).rows.happiness,
      h.country_id ∈ (generate_dml_A all).countries.map (fun c => c.1)) ∧
    (∀ c ∈ (generate_dml_A all).countries, c.2.2 ∈ regionJVals) ∧
    ((generate_dml_B rand randInt json).rows.economic.map BERow.report_id =
      (generate_dml_B rand randInt json).rows.happiness.map BHRow.report_id) ∧
    ((generate_dml_B rand randInt json).rows.social.map BSRow.report_id =
      (generate_dml_B rand randInt json).rows.happiness.map BHRow.report_id) ∧
    ((generate_dml_B rand randInt json).rows.perception.map BPRow.report_id =
      (generate_dml_B rand randInt json).rows.happiness.map BHRow.report_id) ∧
    (∀ h ∈ (generate_dml_B rand randInt json).rows.happiness,
      h.country_id ∈ COUNTRIES_B.map (fun c => c.1)) ∧
    (∀ c ∈ COUNTRIES_B, c.2.2 ∈ REGIONS_SORTED.map Prod.fst) := by
  have hA := genA_countries_spec all 10001
    (((extract_countries [] all).insertionSort
      (fun p q => jvalKey p.1 ≤ jvalKey q.1)).map (fun c => c.1))
  have hB := genB_countries_spec rand randInt json 10001 COUNTRIES_B
  refine ⟨hA.1, hA.2.1, hA.2.2.1, hA.2.2.2, ?_, hB.2.2.2.2.2.1, hB.2.2.2.2.2.2.1,
    hB.2.2.2.2.2.2.2.1, hB.2.2.2.2.2.2.2.2, by decide⟩
  intro c hc
  have hc2 : c ∈ (extract_countries [] all).insertionSort
      (fun p q => jvalKey p.1 ≤ jvalKey q.1) := hc
  have hmem : c ∈ extract_countries [] all :=
    (List.perm_insertionSort (fun p q : CtryA => jvalKey p.1 ≤ jvalKey q.1)
      (extract_countries [] all)).mem_iff.mp hc2
  rcases extract_countries_region [] all c hmem with h | h
  · cases h
  · obtain ⟨ye, hye, e, he, hr⟩ := h
    rw [hr]
    exact hreg ye hye e he

/-- Counterexample to C2 as stated: on a corpus holding a record with
the sentinel `region_id = 0`, the JSON-driven Emitter's country batch
references region id 0, which is not in the region batch. -/
theorem referential_completeness_cex :
    ¬ (∀ c ∈ (generate_dml_A badCorpus).countries, c.2.2 ∈ regionJVals) := by
  decide

/-- Witness for C2 on a concrete corpus whose region ids come from the
region table: Finland's country-batch row references region 7, which is
in the region batch. -/
theorem referential_completeness_witness :
    (JVal.jint 7 : JVal) ∈ regionJVals :=
  (referential_completeness goodCorpus rand0 randInt0 (corpusLookup goodCorpus)
    (by decide)).2.2.2.2.1 (JVal.jint 1, JVal.jstr "Finland", JVal.jint 7) (by decide)

/-- C8 (amended): the JSON-driven Emitter aborts with no output when
the corpus directory is missing or no year file loads; the
maximal-coverage Emitter reports a missing corpus but still generates
and writes a fully fabricated artifact. -/
theorem missing_corpus_abort (all : List (Nat × List FEntry))
    (rand : Rat → Rat → Rat) (randInt : Int → Int → Int) (d : Bool) :
    mainA false all = none ∧
    mainA d [] = none ∧
    (mainB rand randInt d all).isSome = true := by
  refine ⟨rfl, ?_, rfl⟩
  cases d <;> rfl

/-- Counterexample to C8 as stated: with no corpus at all the
maximal-coverage Emitter still writes its SQL artifact. -/
theorem missing_corpus_abort_cex :
    ¬ (mainB rand0 randInt0 false [] = none) := by
  simp [mainB]

end WHR
